import Mathlib

/-!
Shallow embedding of the order-creation pipeline in
`src/orders/src/create_order/main.py` (CreateOrderFunction).

The Python handler receives an event, checks the top-level keys `order` and
`userId`, validates the order body against a JSON schema, normalizes the
product lines, injects derived fields (orderId, status, timestamps, total),
fans out to three remote validators (delivery, payment, products), and stores
the order in DynamoDB iff no validator reported an error.

Modelling choices, each tied to a source line:
* Remote HTTP interactions are modelled by an `HttpResult` value describing
  what the remote service did: `transportError` (the `requests.post` call at
  lines 53/108 raises), or `response status body` where `body = none` means
  the response body is not valid JSON (`response.json()` at lines 64/119
  raises `json.JSONDecodeError`).
* Python exceptions that escape a function are modelled with `Except PyError`.
* `uuid.uuid4()` and `datetime.datetime.now().isoformat()` (lines 168-173) are
  nondeterministic; they enter the model through an `Env` value.
* The JSON schema lives in `schema.json`, which is not part of the source;
  the verdict of `jsonschema.validate` (line 215) is therefore a parameter
  `schemaErr : Option String` of the handler model: `none` means the schema
  accepted the order, `some exc` means it raised `ValidationError` whose
  `str(exc)` is `exc`.
* The DynamoDB put in `store_order` (line 190) is modelled by the handler
  returning, next to its response, the order passed to `store_order` when it
  is invoked (`none` when it is not).
-/

namespace CreateOrder

/-- A raw product entry of the submitted order (`order["products"]` items).
The `extra` association list models any further JSON fields an entry may
carry beyond the five that the pipeline reads; `cleanup_products` drops them
(main.py lines 153-159). -/
structure RawProduct where
  productId : String
  name : String
  package : String
  price : Int
  quantity : Option Nat
  extra : List (String × String)
  deriving DecidableEq, Repr

/-- A normalized product line, the exact field set built by
`cleanup_products` (main.py lines 153-159). -/
structure ProductLine where
  productId : String
  name : String
  package : String
  price : Int
  quantity : Nat
  deriving DecidableEq, Repr

/-- The order body submitted under `event["order"]`: a product list, a
declared delivery price and an opaque address (addresses are never
interpreted locally, so we model them as strings). -/
structure RawOrder where
  products : List RawProduct
  deliveryPrice : Int
  address : String
  deriving DecidableEq, Repr

/-- The Lambda event: the handler looks up the keys `order` and `userId`
(main.py line 201); `none` models a missing key. -/
structure Event where
  userId : Option String
  order : Option RawOrder
  deriving DecidableEq, Repr

/-- The fully field-injected order, as built by `inject_order_fields`
(main.py lines 162-176) on the normalized order. -/
structure Order where
  orderId : String
  userId : String
  status : String
  createdDate : String
  modifiedDate : String
  products : List ProductLine
  deliveryPrice : Int
  address : String
  total : Int
  deriving DecidableEq, Repr

/-- Nondeterministic environment of one invocation: the value of
`str(uuid.uuid4())` and of `datetime.datetime.now().isoformat()`
(main.py lines 168-173). -/
structure Env where
  uuid : String
  now : String
  deriving DecidableEq, Repr

/-- Behaviour of one remote HTTP call, as observed by the caller:
`transportError` models `requests.post` raising; `response status none`
models a response whose body is not JSON (so `response.json()` raises);
`response status (some body)` is a decoded JSON body with HTTP status. -/
inductive HttpResult (β : Type) where
  | transportError : HttpResult β
  | response (status : Nat) (body : Option β) : HttpResult β
  deriving DecidableEq, Repr

/-- Decoded JSON body of the delivery service response: the `pricing` key
may be absent (main.py line 65). -/
structure DeliveryBody where
  pricing : Option Int
  deriving DecidableEq, Repr

/-- Decoded JSON body of the product catalog response: `products` is the
possibly-absent list of invalid entries, `message` the possibly-absent
explanatory message (main.py line 120). -/
structure ProductsBody where
  products : Option (List ProductLine)
  message : Option String
  deriving DecidableEq, Repr

/-- A Python exception escaping a validator: `requestException` for a failed
`requests.post`, `jsonDecodeError` for `response.json()` on a non-JSON
body. -/
inductive PyError where
  | requestException : PyError
  | jsonDecodeError : PyError
  deriving DecidableEq, Repr

/-- The mismatch message built at main.py line 79:
`"Wrong delivery price: got {}, expected {}".format(order["deliveryPrice"], body["pricing"])`. -/
def wrongPriceMsg (got expected : Int) : String :=
  "Wrong delivery price: got " ++ toString got ++ ", expected " ++ toString expected

/-- `validate_delivery` (main.py lines 39-81): posts to the delivery service
and checks the returned `pricing` against the order's `deliveryPrice`.
The Python guard is `status_code != 200 or "pricing" not in body` (line 65);
both disjuncts yield the same generic message, so the model splits on the
presence of `pricing` first, which decides the same function. -/
def validate_delivery (order : Order) (svc : HttpResult DeliveryBody) :
    Except PyError (Bool × String) :=
  match svc with
  | .transportError => .error .requestException
  | .response _ none => .error .jsonDecodeError
  | .response status (some body) =>
    match body.pricing with
    | none => .ok (false, "Failure to contact the delivery service")
    | some pricing =>
      if status ≠ 200 then
        .ok (false, "Failure to contact the delivery service")
      else if pricing ≠ order.deliveryPrice then
        .ok (false, wrongPriceMsg order.deliveryPrice pricing)
      else
        .ok (true, "The delivery price is valid")

/-- `validate_payment` (main.py lines 85-91): an explicit stub, always
`(True, "")`. -/
def validate_payment (_order : Order) : Except PyError (Bool × String) :=
  .ok (true, "")

/-- `validate_products` (main.py lines 95-120): posts the product list to the
catalog service and accepts iff `len(body.get("products", [])) == 0`,
returning `body.get("message", "")` as the message. The HTTP status code is
never inspected. -/
def validate_products (_order : Order) (svc : HttpResult ProductsBody) :
    Except PyError (Bool × String) :=
  match svc with
  | .transportError => .error .requestException
  | .response _ none => .error .jsonDecodeError
  | .response _ (some body) =>
    .ok ((body.products.getD []).length == 0, body.message.getD "")

/-- The error-collection loop of `validate` (main.py lines 129-135): walk the
gathered `(valid, error_msg)` pairs in registration order and keep the
message of every failing one. -/
def collect_errors : List (Bool × String) → List String
  | [] => []
  | (valid, msg) :: rest =>
    (if valid then [] else [msg]) ++ collect_errors rest

/-- `validate` (main.py lines 124-144): run the three validators, gather
their results in registration order (delivery, payment, products) and return
the list of error messages of the failing ones. An exception raised by a
validator propagates out of `asyncio.gather`. -/
def validate (order : Order) (dsvc : HttpResult DeliveryBody)
    (psvc : HttpResult ProductsBody) : Except PyError (List String) :=
  match validate_delivery order dsvc with
  | .error e => .error e
  | .ok d =>
    match validate_payment order with
    | .error e => .error e
    | .ok p =>
      match validate_products order psvc with
      | .error e => .error e
      | .ok r => .ok (collect_errors [d, p, r])

/-- `cleanup_products` (main.py lines 148-159): project every raw product
entry onto the five canonical fields, defaulting a missing `quantity`
to 1. -/
def cleanup_products (products : List RawProduct) : List ProductLine :=
  products.map (fun product =>
    { productId := product.productId
      name := product.name
      package := product.package
      price := product.price
      quantity := product.quantity.getD 1 })

/-- `inject_order_fields` (main.py lines 162-176): add `orderId`, `status`,
`createdDate`, `modifiedDate` and `total` to the normalized order. Both
timestamps come from the single `now` captured at line 168. -/
def inject_order_fields (uuid now userId : String) (products : List ProductLine)
    (deliveryPrice : Int) (address : String) : Order :=
  { orderId := uuid
    userId := userId
    status := "NEW"
    createdDate := now
    modifiedDate := now
    products := products
    deliveryPrice := deliveryPrice
    address := address
    total := (products.map (fun p => p.price * (p.quantity : Int))).sum + deliveryPrice }

/-- The caller-facing response built by the handler: `failure` is
`{"success": False, "message": ..., "errors": [...]}` and `success` is
`{"success": True, "message": ..., "order": ...}`. -/
inductive Resp where
  | failure (message : String) (errors : List String) : Resp
  | success (message : String) (order : Order) : Resp
  deriving DecidableEq, Repr

/-- `handler` (main.py lines 195-275). Returns the response paired with the
order handed to `store_order` (line 238) when the put happens, `none`
otherwise; a `.error` value is a Python exception escaping the handler.
`schemaErr` is the verdict of `jsonschema.validate` on the order
(see the module docstring). -/
def handler (event : Event) (schemaErr : Option String) (env : Env)
    (dsvc : HttpResult DeliveryBody) (psvc : HttpResult ProductsBody) :
    Except PyError (Resp × Option Order) :=
  match event.order with
  | none => .ok (.failure "Invalid event" ["Missing order in event"], none)
  | some rawOrder =>
    match event.userId with
    | none => .ok (.failure "Invalid event" ["Missing userId in event"], none)
    | some userId =>
      match schemaErr with
      | some exc => .ok (.failure "JSON Schema validation error" [exc], none)
      | none =>
        let order := inject_order_fields env.uuid env.now userId
          (cleanup_products rawOrder.products) rawOrder.deliveryPrice rawOrder.address
        match validate order dsvc psvc with
        | .error e => .error e
        | .ok errorMsgs =>
          if errorMsgs.length > 0 then
            .ok (.failure "Validation errors" errorMsgs, none)
          else
            .ok (.success "Order created" order, some order)

/-- The order that the pipeline builds from a raw order once the schema has
accepted it: normalization followed by field injection (main.py
lines 224-227). -/
def pipelineOrder (env : Env) (userId : String) (ro : RawOrder) : Order :=
  inject_order_fields env.uuid env.now userId (cleanup_products ro.products)
    ro.deliveryPrice ro.address

/-- Projection of a handler outcome onto the order passed to `store_order`,
if any (an escaping exception stores nothing, since the put at line 238 runs
after `validate` returned). -/
def storedOf : Except PyError (Resp × Option Order) → Option Order
  | .ok (_, st) => st
  | .error _ => none

/-- Acceptance of one validator outcome: it returned (did not raise) and its
first component is `True`. -/
def accepted : Except PyError (Bool × String) → Bool
  | .ok (true, _) => true
  | _ => false

/-! Concrete example values used by witnesses and counterexamples. -/

/-- Example raw product with an explicit quantity and an extra field. -/
def exProduct1 : RawProduct :=
  { productId := "p-1", name := "Widget", package := "small", price := 3,
    quantity := some 2, extra := [("color", "blue")] }

/-- Example raw product without a quantity. -/
def exProduct2 : RawProduct :=
  { productId := "p-2", name := "Gadget", package := "large", price := 4,
    quantity := none, extra := [] }

/-- Example order body: two products, declared delivery price 5. -/
def exRaw : RawOrder :=
  { products := [exProduct1, exProduct2], deliveryPrice := 5, address := "12 Main St" }

/-- Example event with both top-level keys present. -/
def exEvent : Event := { userId := some "user-1", order := some exRaw }

/-- Example invocation environment. -/
def exEnv : Env := { uuid := "uuid-1", now := "2020-01-01T00:00:00" }

/-- Delivery service agreeing with the declared price 5. -/
def exDeliveryOk : HttpResult DeliveryBody := .response 200 (some { pricing := some 5 })

/-- Catalog service reporting no invalid products. -/
def exProductsOk : HttpResult ProductsBody :=
  .response 200 (some { products := some [], message := none })

/-- Example normalized product line (an invalid entry reported by the
catalog). -/
def exLine : ProductLine :=
  { productId := "xyz", name := "X", package := "p", price := 1, quantity := 1 }

/-- Example order body with declared delivery price 10. -/
def exRaw10 : RawOrder :=
  { products := [exProduct2], deliveryPrice := 10, address := "12 Main St" }

/-- Event carrying `exRaw10`. -/
def exEvent10 : Event := { userId := some "user-1", order := some exRaw10 }

/-- The field-injected order built from `exRaw10`. -/
def exOrder10 : Order := pipelineOrder exEnv "user-1" exRaw10

/-- Delivery service reporting price 12 against declared price 10. -/
def exDeliveryBad : HttpResult DeliveryBody := .response 200 (some { pricing := some 12 })

/-- Catalog service reporting one invalid product with a message. -/
def exProductsBad : HttpResult ProductsBody :=
  .response 200 (some { products := some [exLine], message := some "Product xyz not found" })

deriving instance DecidableEq for Except

/-! Helper lemmas shared by the claim theorems. -/

/-- `validate` in terms of the individual validator outcomes: any raised
exception propagates, otherwise the error list is delivery's message (if
rejecting) followed by products' message (if rejecting); the payment stub
never contributes. -/
theorem validate_char (o : Order) (d : HttpResult DeliveryBody)
    (p : HttpResult ProductsBody) :
    validate o d p =
      match validate_delivery o d, validate_products o p with
      | .error e, _ => .error e
      | .ok _, .error e => .error e
      | .ok (dv, dm), .ok (rv, rm) =>
        .ok ((if dv then [] else [dm]) ++ (if rv then [] else [rm])) := by
  cases hd : validate_delivery o d with
  | error e => simp [validate, hd]
  | ok dres =>
    obtain ⟨dv, dm⟩ := dres
    cases hr : validate_products o p with
    | error e => simp [validate, validate_payment, hd, hr]
    | ok rres =>
      obtain ⟨rv, rm⟩ := rres
      cases dv <;> cases rv <;>
        simp [validate, validate_payment, hd, hr, collect_errors]

/-- `handler` in terms of the pipeline stages. -/
theorem handler_char (e : Event) (se : Option String) (env : Env)
    (d : HttpResult DeliveryBody) (p : HttpResult ProductsBody) :
    handler e se env d p =
      match e.order with
      | none => .ok (.failure "Invalid event" ["Missing order in event"], none)
      | some ro =>
        match e.userId with
        | none => .ok (.failure "Invalid event" ["Missing userId in event"], none)
        | some u =>
          match se with
          | some exc => .ok (.failure "JSON Schema validation error" [exc], none)
          | none =>
            match validate (pipelineOrder env u ro) d p with
            | .error e1 => .error e1
            | .ok msgs =>
              if msgs.length > 0 then .ok (.failure "Validation errors" msgs, none)
              else .ok (.success "Order created" (pipelineOrder env u ro),
                some (pipelineOrder env u ro)) := rfl

/-- If the handler hands an order to `store_order`, then both top-level keys
were present, the schema passed, and the stored value is the full pipeline
order. -/
theorem stored_some_src (e : Event) (se : Option String) (env : Env)
    (d : HttpResult DeliveryBody) (p : HttpResult ProductsBody) (o : Order)
    (h : storedOf (handler e se env d p) = some o) :
    ∃ ro u, e.order = some ro ∧ e.userId = some u ∧ se = none ∧
      o = pipelineOrder env u ro := by
  rw [handler_char] at h
  cases hro : e.order with
  | none => rw [hro] at h; simp [storedOf] at h
  | some ro =>
    rw [hro] at h
    cases hu : e.userId with
    | none => rw [hu] at h; simp [storedOf] at h
    | some u =>
      rw [hu] at h
      cases se with
      | some exc => simp [storedOf] at h
      | none =>
        cases hv : validate (pipelineOrder env u ro) d p with
        | error e1 => simp [storedOf, hv] at h
        | ok msgs =>
          by_cases hl : msgs.length > 0
          · simp [storedOf, hv, hl] at h
          · simp [storedOf, hv, hl] at h
            exact ⟨ro, u, rfl, rfl, rfl, h.symm⟩

/-- Claim C1: the order is durably stored (a put into the order store keyed
by orderId) iff every check passes: `store_order` receives an order exactly
when the top-level keys are present, the schema validates, and all three
remote validators accept; and any stored order is the fully normalized,
fully field-injected pipeline order, never a partially-validated state. -/
theorem C1_stored_iff_all_checks (e : Event) (se : Option String) (env : Env)
    (d : HttpResult DeliveryBody) (p : HttpResult ProductsBody) :
    ((∃ o, storedOf (handler e se env d p) = some o) ↔
      ∃ ro u, e.order = some ro ∧ e.userId = some u ∧ se = none ∧
        accepted (validate_delivery (pipelineOrder env u ro) d) = true ∧
        accepted (validate_payment (pipelineOrder env u ro)) = true ∧
        accepted (validate_products (pipelineOrder env u ro) p) = true) ∧
    ∀ o, storedOf (handler e se env d p) = some o →
      ∃ ro u, e.order = some ro ∧ e.userId = some u ∧ se = none ∧
        o = pipelineOrder env u ro := by
  rw [handler_char]
  cases hro : e.order with
  | none => simp [storedOf]
  | some ro =>
    cases hu : e.userId with
    | none => simp [storedOf]
    | some u =>
      cases se with
      | some exc => simp [storedOf]
      | none =>
        cases hd : validate_delivery (pipelineOrder env u ro) d with
        | error e1 => simp [storedOf, accepted, validate_char, hd]
        | ok dres =>
          obtain ⟨dv, dm⟩ := dres
          cases hr : validate_products (pipelineOrder env u ro) p with
          | error e1 => cases dv <;> simp [storedOf, accepted, validate_char, hd, hr]
          | ok rres =>
            obtain ⟨rv, rm⟩ := rres
            cases dv <;> cases rv <;>
              simp [storedOf, accepted, validate_char, hd, hr, validate_payment]

/-- Closed witness for C1: on a fully passing concrete submission the
handler stores exactly the pipeline order. -/
theorem C1_witness :
    (∃ o, storedOf (handler exEvent none exEnv exDeliveryOk exProductsOk) = some o) ∧
    storedOf (handler exEvent none exEnv exDeliveryOk exProductsOk) =
      some (pipelineOrder exEnv "user-1" exRaw) := by
  refine ⟨(C1_stored_iff_all_checks exEvent none exEnv exDeliveryOk exProductsOk).1.mpr
    ⟨exRaw, "user-1", rfl, rfl, rfl, by decide, by decide, by decide⟩, by decide⟩

/-- Claim C2: every order that reaches persistence satisfies
`total = Σ(price * quantity) + deliveryPrice` (quantity already defaulted to
1 during normalization); this holds for every order passed to
`store_order`. -/
theorem C2_total_invariant (e : Event) (se : Option String) (env : Env)
    (d : HttpResult DeliveryBody) (p : HttpResult ProductsBody) (o : Order)
    (h : storedOf (handler e se env d p) = some o) :
    o.total = (o.products.map (fun pl => pl.price * (pl.quantity : Int))).sum
      + o.deliveryPrice := by
  obtain ⟨ro, u, -, -, -, rfl⟩ := stored_some_src e se env d p o h
  rfl

/-- Closed witness for C2: the concrete passing submission stores an order
whose total 15 equals 3·2 + 4·1 + 5. -/
theorem C2_witness :
    ∃ o, storedOf (handler exEvent none exEnv exDeliveryOk exProductsOk) = some o ∧
      o.total = (o.products.map (fun pl => pl.price * (pl.quantity : Int))).sum
        + o.deliveryPrice ∧ o.total = 15 := by
  refine ⟨pipelineOrder exEnv "user-1" exRaw, by decide, ?_, by decide⟩
  exact C2_total_invariant exEvent none exEnv exDeliveryOk exProductsOk
    (pipelineOrder exEnv "user-1" exRaw) (by decide)

/-- Claim C3: the orchestrator accepts iff all three validators accepted,
and on failure its error list is exactly the messages of the rejecting
validators in the fixed registration order delivery, payment, products;
in particular when delivery and products both fail the list holds both
messages, delivery's first. -/
theorem C3_orchestrator_aggregation (o : Order) (d : HttpResult DeliveryBody)
    (p : HttpResult ProductsBody) (dv pv rv : Bool) (dm pm rm : String)
    (hd : validate_delivery o d = .ok (dv, dm))
    (hp : validate_payment o = .ok (pv, pm))
    (hr : validate_products o p = .ok (rv, rm)) :
    validate o d p =
      .ok ((if dv then [] else [dm]) ++ (if pv then [] else [pm]) ++
        (if rv then [] else [rm])) ∧
    (((if dv then ([] : List String) else [dm]) ++ (if pv then [] else [pm]) ++
        (if rv then [] else [rm])) = [] ↔ (dv = true ∧ pv = true ∧ rv = true)) ∧
    (dv = false → rv = false →
      validate o d p = .ok ([dm] ++ (if pv then [] else [pm]) ++ [rm])) := by
  have hp' : true = pv ∧ "" = pm := by
    simpa [validate_payment, Prod.ext_iff] using hp
  obtain ⟨hpv, hpm⟩ := hp'
  subst hpv
  subst hpm
  refine ⟨?_, ?_, ?_⟩
  · simp [validate_char, hd, hr]
  · cases dv <;> cases rv <;> simp
  · intro h1 h2
    subst h1
    subst h2
    simp [validate_char, hd, hr]

/-- Closed witness for C3: delivery failure (declared 10 vs reported 12)
and products failure together yield both messages, delivery's first. -/
theorem C3_witness :
    validate exOrder10 exDeliveryBad exProductsBad =
      .ok ["Wrong delivery price: got 10, expected 12", "Product xyz not found"] := by
  have h := C3_orchestrator_aggregation exOrder10 exDeliveryBad exProductsBad
    false true false "Wrong delivery price: got 10, expected 12" ""
    "Product xyz not found" (by decide) (by decide) (by decide)
  simpa using h.2.2 rfl rfl

/-- Claim C4: the delivery validator accepts iff the service responds with
HTTP 200 and a well-formed body whose `pricing` equals the order's declared
`deliveryPrice` exactly; a present-but-mismatched price on a success
response is rejected with the message naming both prices. -/
theorem C4_delivery_validator (o : Order) (svc : HttpResult DeliveryBody) :
    (accepted (validate_delivery o svc) = true ↔
      ∃ body, svc = .response 200 (some body) ∧ body.pricing = some o.deliveryPrice) ∧
    (∀ body pr, svc = .response 200 (some body) → body.pricing = some pr →
      pr ≠ o.deliveryPrice →
      validate_delivery o svc = .ok (false, wrongPriceMsg o.deliveryPrice pr)) := by
  constructor
  · cases svc with
    | transportError => simp [validate_delivery, accepted]
    | response status body =>
      cases body with
      | none => simp [validate_delivery, accepted]
      | some b =>
        cases hbp : b.pricing with
        | none => simp [validate_delivery, accepted, hbp]
        | some pr =>
          by_cases hs : status = 200
          · subst hs
            by_cases hpr : pr = o.deliveryPrice
            · subst hpr
              simp [validate_delivery, accepted, hbp]
            · simp [validate_delivery, accepted, hbp, hpr]
          · simp [validate_delivery, accepted, hbp, hs]
  · intro body pr hsvc hbp hne
    subst hsvc
    simp [validate_delivery, hbp, hne]

/-- Closed witness for C4: declared price 10 against reported price 12 is
rejected with exactly the message of the spec example, and not accepted. -/
theorem C4_witness :
    validate_delivery exOrder10 exDeliveryBad =
      .ok (false, "Wrong delivery price: got 10, expected 12") ∧
    accepted (validate_delivery exOrder10 exDeliveryBad) = false := by
  have h := (C4_delivery_validator exOrder10 exDeliveryBad).2
    { pricing := some 12 } 12 rfl rfl (by decide)
  refine ⟨?_, by decide⟩
  rw [h]
  decide

/-- Counterexample to claim C5 as stated: on a success-status response whose
body is not JSON, the delivery validator raises (the `response.json()` call)
instead of returning an (accepted, message) pair; a transport-level failure
of the catalog call likewise raises out of the product validator, and the
exception escalates through the orchestrator. -/
theorem C5_counterexample :
    validate_delivery exOrder10 (.response 200 none) = .error .jsonDecodeError ∧
    validate_products exOrder10 .transportError = .error .requestException ∧
    validate exOrder10 (.response 200 none) exProductsOk = .error .jsonDecodeError := by
  refine ⟨rfl, rfl, by decide⟩

/-- Claim C5 (amended): when the backing service yields an HTTP response
whose body decodes as JSON, each remote validator returns an
(accepted, message) pair without raising — non-success statuses and missing
fields are folded into rejection messages — but a transport-level failure or
a non-JSON body raises an exception that propagates to the caller. -/
theorem C5_no_raise_on_wellformed (o : Order) (s s2 : Nat) (db : DeliveryBody)
    (pb : ProductsBody) :
    (∃ r, validate_delivery o (.response s (some db)) = .ok r) ∧
    (∃ r, validate_payment o = .ok r) ∧
    (∃ r, validate_products o (.response s2 (some pb)) = .ok r) ∧
    validate_delivery o .transportError = .error .requestException ∧
    validate_delivery o (.response s none) = .error .jsonDecodeError ∧
    validate_products o .transportError = .error .requestException ∧
    validate_products o (.response s2 none) = .error .jsonDecodeError := by
  refine ⟨?_, ⟨(true, ""), rfl⟩, ⟨_, rfl⟩, rfl, rfl, rfl, rfl⟩
  cases hbp : db.pricing with
  | none =>
    exact ⟨(false, "Failure to contact the delivery service"),
      by simp [validate_delivery, hbp]⟩
  | some pr =>
    by_cases hs : s = 200
    · subst hs
      by_cases hpr : pr = o.deliveryPrice
      · subst hpr
        exact ⟨(true, "The delivery price is valid"),
          by simp [validate_delivery, hbp]⟩
      · exact ⟨(false, wrongPriceMsg o.deliveryPrice pr),
          by simp [validate_delivery, hbp, hpr]⟩
    · exact ⟨(false, "Failure to contact the delivery service"),
        by simp [validate_delivery, hbp, hs]⟩

/-- Claim C6: a submission failing before field injection — a missing
top-level `order` or `userId` key, or a schema violation — yields
success:false with a single-item error list naming the missing key or
carrying the schema error, nothing is stored, and the outcome is the same
for every environment and every remote-service behaviour (so no identifier
is generated and no remote call matters). -/
theorem C6_early_failures (e : Event) (se : Option String) (env env2 : Env)
    (d d2 : HttpResult DeliveryBody) (p p2 : HttpResult ProductsBody)
    (h : e.order = none ∨ e.userId = none ∨ se ≠ none) :
    handler e se env d p = handler e se env2 d2 p2 ∧
    (e.order = none →
      handler e se env d p =
        .ok (.failure "Invalid event" ["Missing order in event"], none)) ∧
    (∀ ro, e.order = some ro → e.userId = none →
      handler e se env d p =
        .ok (.failure "Invalid event" ["Missing userId in event"], none)) ∧
    (∀ ro u exc, e.order = some ro → e.userId = some u → se = some exc →
      handler e se env d p =
        .ok (.failure "JSON Schema validation error" [exc], none)) := by
  rw [handler_char, handler_char]
  cases hro : e.order with
  | none => simp
  | some ro =>
    cases hu : e.userId with
    | none => simp
    | some u =>
      cases se with
      | some exc => simp
      | none => simp [hro, hu] at h

/-- Closed witness for C6: a payload with the `order` body but no `userId`
is rejected with the single error naming `userId`, stores nothing, and this
holds for the concrete environment and services. -/
theorem C6_witness :
    handler { userId := none, order := some exRaw } none exEnv exDeliveryOk exProductsOk =
      .ok (.failure "Invalid event" ["Missing userId in event"], none) :=
  (C6_early_failures { userId := none, order := some exRaw } none exEnv exEnv
    exDeliveryOk exDeliveryOk exProductsOk exProductsOk
    (Or.inr (Or.inl rfl))).2.2.1 exRaw rfl rfl

/-- If the handler reports full success, the order in the response is the
pipeline order and it is exactly the stored one. -/
theorem success_src (e : Event) (se : Option String) (env : Env)
    (d : HttpResult DeliveryBody) (p : HttpResult ProductsBody) (m : String)
    (o : Order) (st : Option Order)
    (h : handler e se env d p = .ok (.success m o, st)) :
    ∃ ro u, e.order = some ro ∧ e.userId = some u ∧ se = none ∧
      o = pipelineOrder env u ro ∧ st = some o ∧ m = "Order created" := by
  rw [handler_char] at h
  cases hro : e.order with
  | none => rw [hro] at h; simp at h
  | some ro =>
    rw [hro] at h
    cases hu : e.userId with
    | none => rw [hu] at h; simp at h
    | some u =>
      rw [hu] at h
      cases se with
      | some exc => simp at h
      | none =>
        cases hv : validate (pipelineOrder env u ro) d p with
        | error e1 => simp [hv] at h
        | ok msgs =>
          by_cases hl : msgs.length > 0
          · simp [hv, hl] at h
          · simp [hv, hl] at h
            exact ⟨ro, u, rfl, rfl, rfl, h.1.2.symm, by rw [← h.2, h.1.2], h.1.1.symm⟩

/-- Counterexample to claim C7 as stated: the status injected by
`inject_order_fields` is the string "NEW", not the lowercase "new" the claim
names. -/
theorem C7_counterexample :
    (inject_order_fields "uuid-0" "t0" "user-0" [] 0 "addr-0").status = "NEW" ∧
    ¬ (inject_order_fields "uuid-0" "t0" "user-0" [] 0 "addr-0").status = "new" := by
  decide

/-- Claim C7 (amended): field injection always succeeds and establishes the
freshly generated identifier as `orderId`, status equal to the initial
lifecycle value "NEW" (uppercase, unlike the claim's "new"), and
`createdDate` equal to `modifiedDate`, both the same instant; these are the
fields of the order returned on full success. -/
theorem C7_field_injection (env : Env) (uid ad : String) (ps : List ProductLine)
    (dp : Int) (e : Event) (se : Option String) (d : HttpResult DeliveryBody)
    (p : HttpResult ProductsBody) (m : String) (o : Order) (st : Option Order) :
    ((inject_order_fields env.uuid env.now uid ps dp ad).orderId = env.uuid ∧
     (inject_order_fields env.uuid env.now uid ps dp ad).status = "NEW" ∧
     (inject_order_fields env.uuid env.now uid ps dp ad).createdDate =
       (inject_order_fields env.uuid env.now uid ps dp ad).modifiedDate) ∧
    (handler e se env d p = .ok (.success m o, st) →
      o.orderId = env.uuid ∧ o.status = "NEW" ∧
      o.createdDate = env.now ∧ o.modifiedDate = env.now) := by
  refine ⟨⟨rfl, rfl, rfl⟩, fun h => ?_⟩
  obtain ⟨ro, u, -, -, -, rfl, -, -⟩ := success_src e se env d p m o st h
  exact ⟨rfl, rfl, rfl, rfl⟩

/-- Closed witness for C7: on the concrete passing submission the returned
order carries the environment's identifier, status "NEW" and equal
timestamps. -/
theorem C7_witness :
    (pipelineOrder exEnv "user-1" exRaw).orderId = "uuid-1" ∧
    (pipelineOrder exEnv "user-1" exRaw).status = "NEW" ∧
    (pipelineOrder exEnv "user-1" exRaw).createdDate = "2020-01-01T00:00:00" ∧
    (pipelineOrder exEnv "user-1" exRaw).modifiedDate = "2020-01-01T00:00:00" := by
  have h := (C7_field_injection exEnv "user-1" "a" [] 0 exEvent none exDeliveryOk
    exProductsOk "Order created" (pipelineOrder exEnv "user-1" exRaw)
    (some (pipelineOrder exEnv "user-1" exRaw))).2 (by decide)
  exact ⟨h.1, h.2.1, h.2.2.1, h.2.2.2⟩

/-- Claim C8: product normalization is a pure, deterministic,
order-preserving projection onto exactly the fields productId, name,
package, price, quantity, with quantity copied when present and defaulting
to 1 when absent; any other input fields are dropped; there is no failure
mode. -/
theorem C8_cleanup_products (ps : List RawProduct) (i : Nat) (p q : RawProduct)
    (hid : p.productId = q.productId) (hn : p.name = q.name)
    (hpk : p.package = q.package) (hpr : p.price = q.price)
    (hq : p.quantity = q.quantity) :
    (cleanup_products ps).length = ps.length ∧
    (cleanup_products ps)[i]? = (ps[i]?).map (fun r =>
      ({ productId := r.productId, name := r.name, package := r.package,
         price := r.price, quantity := r.quantity.getD 1 } : ProductLine)) ∧
    cleanup_products [p] = cleanup_products [q] := by
  refine ⟨by simp [cleanup_products], ?_, ?_⟩
  · simp [cleanup_products]
  · simp [cleanup_products, hid, hn, hpk, hpr, hq]

/-- Closed witness for C8: normalizing the two concrete products keeps the
length and order, defaults the missing quantity of the second to 1, and
gives the same output when the first product's extra field is removed. -/
theorem C8_witness :
    (cleanup_products [exProduct1, exProduct2]).length = 2 ∧
    (cleanup_products [exProduct1, exProduct2])[1]? =
      some { productId := "p-2", name := "Gadget", package := "large",
             price := 4, quantity := 1 } ∧
    cleanup_products [exProduct1] =
      cleanup_products [{ exProduct1 with extra := [] }] := by
  have h := C8_cleanup_products [exProduct1, exProduct2] 1 exProduct1
    { exProduct1 with extra := [] } rfl rfl rfl rfl rfl
  refine ⟨h.1, ?_, h.2.2⟩
  rw [h.2.1]
  decide

/-- Claim C9: on every successful submission the caller-supplied `userId`,
`deliveryPrice` and `address` appear unchanged in the returned and stored
order; the pipeline only adds or rewrites `products` (normalization) and the
injected fields. -/
theorem C9_frame (e : Event) (ro : RawOrder) (u : String) (se : Option String)
    (env : Env) (d : HttpResult DeliveryBody) (p : HttpResult ProductsBody)
    (m : String) (o : Order) (st : Option Order)
    (ho : e.order = some ro) (hu : e.userId = some u)
    (h : handler e se env d p = .ok (.success m o, st)) :
    o.userId = u ∧ o.deliveryPrice = ro.deliveryPrice ∧ o.address = ro.address ∧
    o.products = cleanup_products ro.products ∧ st = some o := by
  obtain ⟨ro2, u2, ho2, hu2, -, rfl, hst, -⟩ := success_src e se env d p m o st h
  rw [ho] at ho2
  rw [hu] at hu2
  obtain rfl : ro = ro2 := Option.some.inj ho2
  obtain rfl : u = u2 := Option.some.inj hu2
  exact ⟨rfl, rfl, rfl, rfl, hst⟩

/-- Closed witness for C9: on the concrete passing submission the stored and
returned order keeps userId "user-1", deliveryPrice 5 and the submitted
address. -/
theorem C9_witness :
    (pipelineOrder exEnv "user-1" exRaw).userId = "user-1" ∧
    (pipelineOrder exEnv "user-1" exRaw).deliveryPrice = exRaw.deliveryPrice ∧
    (pipelineOrder exEnv "user-1" exRaw).address = exRaw.address ∧
    (pipelineOrder exEnv "user-1" exRaw).products = cleanup_products exRaw.products ∧
    (some (pipelineOrder exEnv "user-1" exRaw) : Option Order) =
      some (pipelineOrder exEnv "user-1" exRaw) :=
  C9_frame exEvent exRaw "user-1" none exEnv exDeliveryOk exProductsOk
    "Order created" (pipelineOrder exEnv "user-1" exRaw)
    (some (pipelineOrder exEnv "user-1" exRaw)) rfl rfl (by decide)

/-- Claim C10: when the catalog response body lacks the `products` key
entirely, the product validator treats the invalid subset as empty and
accepts; its message is the body's `message` field when present and the
empty string otherwise. -/
theorem C10_products_missing_key (o : Order) (s : Nat) (msg : Option String) :
    validate_products o (.response s (some { products := none, message := msg })) =
      .ok (true, msg.getD "") ∧
    validate_products o (.response s (some { products := none, message := none })) =
      .ok (true, "") ∧
    accepted (validate_products o
      (.response s (some { products := none, message := msg }))) = true :=
  ⟨rfl, rfl, rfl⟩

end CreateOrder
